import Mathlib

/-!
Verification of the session/runtime-state tracking and per-frame metrics
computation of `src/src/init.js` (the `ARVR_VirtualFit` WebXR demo).

The embedded code is the module-level session state (init.js lines 166-175),
the helper `calculateCaloriesBurned` (lines 330-333) and the per-frame
handler `animate` (lines 338-367).  JavaScript numbers are modelled as exact
rationals.  Because the bare field operations on `ℚ` do not reduce inside
the Lean kernel, the model uses `mkRat`-based operations `qadd`, `qsub`,
`qmul`, `qdiv`; each is proved equal to the corresponding field operation
(`qadd_eq`, `qsub_eq`, `qmul_eq`, `qdiv_eq`), so the model is the ordinary
rational-arithmetic semantics while staying evaluable by `decide`.
-/

/-- Rational addition through `mkRat`; provably equal to `(· + ·)`. -/
def qadd (a b : ℚ) : ℚ := mkRat (a.num * (b.den : ℤ) + b.num * (a.den : ℤ)) (a.den * b.den)

/-- Rational subtraction through `mkRat`; provably equal to `(· - ·)`. -/
def qsub (a b : ℚ) : ℚ := mkRat (a.num * (b.den : ℤ) - b.num * (a.den : ℤ)) (a.den * b.den)

/-- Rational multiplication through `mkRat`; provably equal to `(· * ·)`. -/
def qmul (a b : ℚ) : ℚ := mkRat (a.num * b.num) (a.den * b.den)

/-- Rational division through `mkRat`; provably equal to `(· / ·)`
(with the `ℚ` convention `a / 0 = 0`). -/
def qdiv (a b : ℚ) : ℚ :=
  if 0 ≤ b.num then mkRat (a.num * (b.den : ℤ)) (a.den * b.num.natAbs)
  else mkRat (-(a.num * (b.den : ℤ))) (a.den * b.num.natAbs)

theorem qadd_eq (a b : ℚ) : qadd a b = a + b := by
  have ha : ((a.den : ℚ)) ≠ 0 := Nat.cast_ne_zero.mpr a.den_ne_zero
  have hb : ((b.den : ℚ)) ≠ 0 := Nat.cast_ne_zero.mpr b.den_ne_zero
  rw [qadd, Rat.mkRat_eq_div]
  conv_rhs => rw [← Rat.num_div_den a, ← Rat.num_div_den b]
  rw [div_add_div _ _ ha hb]
  push_cast
  ring_nf

theorem qsub_eq (a b : ℚ) : qsub a b = a - b := by
  have ha : ((a.den : ℚ)) ≠ 0 := Nat.cast_ne_zero.mpr a.den_ne_zero
  have hb : ((b.den : ℚ)) ≠ 0 := Nat.cast_ne_zero.mpr b.den_ne_zero
  rw [qsub, Rat.mkRat_eq_div]
  conv_rhs => rw [← Rat.num_div_den a, ← Rat.num_div_den b]
  rw [div_sub_div _ _ ha hb]
  push_cast
  ring_nf

theorem qmul_eq (a b : ℚ) : qmul a b = a * b := by
  have ha : ((a.den : ℚ)) ≠ 0 := Nat.cast_ne_zero.mpr a.den_ne_zero
  have hb : ((b.den : ℚ)) ≠ 0 := Nat.cast_ne_zero.mpr b.den_ne_zero
  rw [qmul, Rat.mkRat_eq_div]
  conv_rhs => rw [← Rat.num_div_den a, ← Rat.num_div_den b]
  rw [div_mul_div_comm]
  push_cast
  ring_nf

theorem qdiv_eq (a b : ℚ) : qdiv a b = a / b := by
  have ha : ((a.den : ℚ)) ≠ 0 := Nat.cast_ne_zero.mpr a.den_ne_zero
  have hb : ((b.den : ℚ)) ≠ 0 := Nat.cast_ne_zero.mpr b.den_ne_zero
  by_cases h0 : b.num = 0
  · have hb0 : b = 0 := Rat.num_eq_zero.mp h0
    simp [qdiv, h0, hb0, Rat.mkRat_eq_div]
  · rcases lt_or_le b.num 0 with hneg | hpos
    · have habs : ((b.num.natAbs : ℤ)) = -b.num := Int.ofNat_natAbs_of_nonpos hneg.le
      have hnum : ((b.num : ℚ)) ≠ 0 := Int.cast_ne_zero.mpr h0
      have habsQ : ((b.num.natAbs : ℚ)) = -((b.num : ℚ)) := by
        rw [Int.cast_natAbs]
        exact_mod_cast abs_of_neg hneg
      rw [qdiv, if_neg (not_le.mpr hneg), Rat.mkRat_eq_div]
      conv_rhs => rw [← Rat.num_div_den a, ← Rat.num_div_den b]
      push_cast
      rw [habsQ]
      field_simp
    · have habsQ : ((b.num.natAbs : ℚ)) = ((b.num : ℚ)) := by
        rw [Int.cast_natAbs]
        exact_mod_cast abs_of_nonneg hpos
      have hnum : ((b.num : ℚ)) ≠ 0 := Int.cast_ne_zero.mpr h0
      rw [qdiv, if_pos hpos, Rat.mkRat_eq_div]
      conv_rhs => rw [← Rat.num_div_den a, ← Rat.num_div_den b]
      push_cast
      rw [habsQ]
      field_simp

/-- The integer `round(q * 100)` used to render a number with two decimal
places, as JavaScript's `toFixed(2)` does (nearest value, ties toward the
larger candidate).  Written over `q.num`/`q.den` so that it evaluates inside
the kernel; `fixed2_eq_round` identifies it with `round (q * 100)`. -/
def fixed2 (q : ℚ) : ℤ := (q.num * 200 + (q.den : ℤ)) / (2 * (q.den : ℤ))

theorem fixed2_eq_round (q : ℚ) : fixed2 q = round (q * 100) := by
  have hq : q * 100 + 1 / 2 =
      (((q.num * 200 + (q.den : ℤ) : ℤ) : ℚ)) / (((2 * q.den : ℕ) : ℚ)) := by
    have hd : ((q.den : ℚ)) ≠ 0 := Nat.cast_ne_zero.mpr q.den_ne_zero
    conv_lhs => rw [← Rat.num_div_den q]
    push_cast
    field_simp
    ring
  rw [round_eq, hq, Rat.floor_intCast_div_natCast, fixed2]
  push_cast
  ring_nf

/-- Decimal rendering of a rational with exactly two digits after the point,
modelling JavaScript's `Number.prototype.toFixed(2)` as used by the report in
`src/src/init.js` lines 352-355. -/
def fmt2 (q : ℚ) : String :=
  let n : ℤ := fixed2 q
  let sgn := if n < 0 then "-" else ""
  let a := n.natAbs
  let frac := a % 100
  let fracStr := if frac < 10 then "0" ++ toString frac else toString frac
  sgn ++ toString (a / 100) ++ "." ++ fracStr

/-- A 3-D vector with rational coordinates, modelling `THREE.Vector3`. -/
structure Vec3 where
  x : ℚ
  y : ℚ
  z : ℚ
deriving DecidableEq

/-- Euclidean distance in 3-space between two sampled positions.  This is the
spec-side notion used by the distance claims; the source never computes it. -/
noncomputable def dist3 (a b : Vec3) : ℝ :=
  Real.sqrt ((((a.x - b.x) ^ 2 + (a.y - b.y) ^ 2 + (a.z - b.z) ^ 2 : ℚ)) : ℝ)

/-- The module-level mutable session state of `src/src/init.js` lines 166-171:
`startTime`, `elapsedTime`, `lastLoggedTime`, `steps`, `totalDistance`,
`previousPosition`. -/
structure SessionState where
  startTime : ℚ
  elapsedTime : ℚ
  lastLoggedTime : ℚ
  steps : ℕ
  totalDistance : ℚ
  previousPosition : Vec3
deriving DecidableEq

/-- Initial values of the module-level state (init.js lines 166-171):
all accumulators `0`, `previousPosition = new THREE.Vector3()` (the origin). -/
def initState : SessionState :=
  { startTime := 0
    elapsedTime := 0
    lastLoggedTime := 0
    steps := 0
    totalDistance := 0
    previousPosition := ⟨0, 0, 0⟩ }

/-- `const userHeight = 152` (init.js line 174). -/
def userHeight : ℚ := 152

/-- `const userWeight = 50` (init.js line 175). -/
def userWeight : ℚ := 50

/-- One frame's inputs: `delta = clock.getDelta()`, `time =
clock.getElapsedTime()` (init.js lines 339-340), together with the player
anchor position sampled at that frame.  The position is available to the
handler (the `player` group of the rendering context) but the handler body
(init.js lines 338-367) never reads it. -/
structure FrameInput where
  delta : ℚ
  time : ℚ
  playerPosition : Vec3
deriving DecidableEq

/-- `calculateCaloriesBurned` (init.js lines 330-333):
`(weight / 100) * caloriesPerMinute * duration` with `caloriesPerMinute = 8`. -/
def calculateCaloriesBurned (weight duration : ℚ) : ℚ :=
  let caloriesPerMinute : ℚ := 8
  qmul (qmul (qdiv weight 100) caloriesPerMinute) duration

/-- The four `console.log` lines emitted by the handler (init.js lines
352-355), rendered from the state at the moment of emission. -/
def emitReport (s : SessionState) : List String :=
  [ "Time Elapsed: " ++ fmt2 s.elapsedTime ++ " seconds"
  , "Steps Taken: " ++ toString s.steps
  , "Total Distance: " ++ fmt2 s.totalDistance ++ " meters"
  , "Calories Burned: " ++ fmt2 (calculateCaloriesBurned userWeight (qdiv s.elapsedTime 60)) ]

/-- The per-frame handler `animate` (init.js lines 338-367) restricted to its
session-state effect: lazily set `startTime` when it is still `0`, add `delta`
to `elapsedTime`, and, when `elapsedTime - lastLoggedTime >= 10`, emit the
report and set `lastLoggedTime = elapsedTime`.  Rendering and the delegated
`onFrame` callback have no effect on this state and are omitted.  Returns the
new state and the report emitted by this call, if any. -/
def animate (s : SessionState) (f : FrameInput) : SessionState × Option (List String) :=
  let s0 := if s.startTime = 0 then { s with startTime := f.time } else s
  let s1 := { s0 with elapsedTime := qadd s0.elapsedTime f.delta }
  if 10 ≤ qsub s1.elapsedTime s1.lastLoggedTime then
    ({ s1 with lastLoggedTime := s1.elapsedTime }, some (emitReport s1))
  else
    (s1, none)

/-- The state reached after a sequence of calls to the per-frame handler. -/
def run : SessionState → List FrameInput → SessionState
  | s, [] => s
  | s, f :: fs => run (animate s f).1 fs

/-- The state reached after a sequence of calls, together with the per-call
emission record (`none` when call `k` emitted nothing). -/
def runLog : SessionState → List FrameInput → SessionState × List (Option (List String))
  | s, [] => (s, [])
  | s, f :: fs =>
    let p := animate s f
    let q := runLog p.1 fs
    (q.1, p.2 :: q.2)

/-- All reports emitted during a sequence of calls, in order. -/
def reports (s : SessionState) (fs : List FrameInput) : List (List String) :=
  (runLog s fs).2.filterMap id


/-- The intermediate state of a call to `animate`: `startTime` lazily set and
`delta` added to `elapsedTime`, before the reporting step (init.js lines
342-348).  The report, when it fires, is rendered from this state. -/
def midState (s : SessionState) (f : FrameInput) : SessionState :=
  { startTime := if s.startTime = 0 then f.time else s.startTime
    elapsedTime := qadd s.elapsedTime f.delta
    lastLoggedTime := s.lastLoggedTime
    steps := s.steps
    totalDistance := s.totalDistance
    previousPosition := s.previousPosition }

theorem animate_fst (s : SessionState) (f : FrameInput) :
    (animate s f).1 =
      if 10 ≤ qsub (qadd s.elapsedTime f.delta) s.lastLoggedTime then
        { midState s f with lastLoggedTime := qadd s.elapsedTime f.delta }
      else midState s f := by
  by_cases h1 : s.startTime = 0 <;>
    by_cases h2 : 10 ≤ qsub (qadd s.elapsedTime f.delta) s.lastLoggedTime <;>
      simp [animate, midState, h1, h2]

theorem animate_snd (s : SessionState) (f : FrameInput) :
    (animate s f).2 =
      if 10 ≤ qsub (qadd s.elapsedTime f.delta) s.lastLoggedTime then
        some (emitReport (midState s f))
      else none := by
  by_cases h1 : s.startTime = 0 <;>
    by_cases h2 : 10 ≤ qsub (qadd s.elapsedTime f.delta) s.lastLoggedTime <;>
      simp [animate, midState, h1, h2]

theorem animate_elapsedTime (s : SessionState) (f : FrameInput) :
    (animate s f).1.elapsedTime = s.elapsedTime + f.delta := by
  rw [animate_fst]
  split <;> simp [midState, qadd_eq]

theorem animate_steps (s : SessionState) (f : FrameInput) :
    (animate s f).1.steps = s.steps := by
  rw [animate_fst]
  split <;> rfl

theorem animate_totalDistance (s : SessionState) (f : FrameInput) :
    (animate s f).1.totalDistance = s.totalDistance := by
  rw [animate_fst]
  split <;> rfl

theorem animate_previousPosition (s : SessionState) (f : FrameInput) :
    (animate s f).1.previousPosition = s.previousPosition := by
  rw [animate_fst]
  split <;> rfl

theorem animate_startTime (s : SessionState) (f : FrameInput) :
    (animate s f).1.startTime = if s.startTime = 0 then f.time else s.startTime := by
  rw [animate_fst]
  split <;> rfl

theorem run_elapsedTime (s : SessionState) (fs : List FrameInput) :
    (run s fs).elapsedTime = s.elapsedTime + (fs.map FrameInput.delta).sum := by
  induction fs generalizing s with
  | nil => simp [run]
  | cons f fs ih =>
    rw [run, ih, animate_elapsedTime]
    simp
    ring

theorem run_totalDistance (s : SessionState) (fs : List FrameInput) :
    (run s fs).totalDistance = s.totalDistance := by
  induction fs generalizing s with
  | nil => rfl
  | cons f fs ih => rw [run, ih, animate_totalDistance]

theorem run_steps (s : SessionState) (fs : List FrameInput) :
    (run s fs).steps = s.steps := by
  induction fs generalizing s with
  | nil => rfl
  | cons f fs ih => rw [run, ih, animate_steps]

theorem run_previousPosition (s : SessionState) (fs : List FrameInput) :
    (run s fs).previousPosition = s.previousPosition := by
  induction fs generalizing s with
  | nil => rfl
  | cons f fs ih => rw [run, ih, animate_previousPosition]

theorem run_startTime_of_ne (s : SessionState) (fs : List FrameInput)
    (h : s.startTime ≠ 0) : (run s fs).startTime = s.startTime := by
  induction fs generalizing s with
  | nil => rfl
  | cons f fs ih =>
    rw [run, ih, animate_startTime, if_neg h]
    rw [animate_startTime, if_neg h]
    exact h

theorem mem_reports (s : SessionState) (fs : List FrameInput) (rep : List String)
    (h : rep ∈ reports s fs) :
    ∃ s', rep = emitReport s' ∧ s'.steps = s.steps ∧ s'.totalDistance = s.totalDistance := by
  induction fs generalizing s with
  | nil =>
    simp [reports, runLog] at h
  | cons f fs ih =>
    have hsplit : reports s (f :: fs) =
        (animate s f).2.toList ++ reports (animate s f).1 fs := by
      simp only [reports, runLog, List.filterMap_cons]
      cases (animate s f).2 <;> simp
    rw [hsplit] at h
    rcases List.mem_append.mp h with h1 | h2
    · rw [animate_snd] at h1
      by_cases hc : 10 ≤ qsub (qadd s.elapsedTime f.delta) s.lastLoggedTime
      · rw [if_pos hc] at h1
        simp at h1
        exact ⟨midState s f, h1, rfl, rfl⟩
      · rw [if_neg hc] at h1
        simp at h1
    · obtain ⟨s', hrep, hsteps, hdist⟩ := ih (animate s f).1 h2
      exact ⟨s', hrep, by rw [hsteps, animate_steps], by rw [hdist, animate_totalDistance]⟩


/-- Claim C1, counterexample.  Scenario B of the claim: first call at
position `(0,0,0)`, second call at `(3,4,0)`.  The Euclidean distance between
the two consecutive samples is `5`, so under the claim `totalDistance` would
be `5.0` after the second call; the handler of init.js lines 338-367 never
touches `totalDistance`, so it is `0`. -/
theorem totalDistance_scenarioB_counterexample :
    (run initState [⟨1, 1, ⟨0, 0, 0⟩⟩, ⟨1, 2, ⟨3, 4, 0⟩⟩]).totalDistance = 0 ∧
    dist3 ⟨0, 0, 0⟩ ⟨3, 4, 0⟩ = 5 ∧
    ¬ ((((run initState [⟨1, 1, ⟨0, 0, 0⟩⟩, ⟨1, 2, ⟨3, 4, 0⟩⟩]).totalDistance : ℚ) : ℝ)
        = dist3 ⟨0, 0, 0⟩ ⟨3, 4, 0⟩) := by
  have h1 : (run initState [⟨1, 1, ⟨0, 0, 0⟩⟩, ⟨1, 2, ⟨3, 4, 0⟩⟩]).totalDistance = 0 := by
    decide
  have h2 : dist3 ⟨0, 0, 0⟩ ⟨3, 4, 0⟩ = 5 := by
    dsimp only [dist3]
    rw [show ((((0 : ℚ) - 3) ^ 2 + ((0 : ℚ) - 4) ^ 2 + ((0 : ℚ) - 0) ^ 2 : ℚ) : ℝ)
          = (5 : ℝ) ^ 2 by norm_num]
    exact Real.sqrt_sq (by norm_num)
  refine ⟨h1, h2, ?_⟩
  rw [h1, h2]
  norm_num

/-- Claim C1, amended.  The per-frame handler never updates `totalDistance`:
after any sequence of calls it equals its initial value, `0` from the initial
state (distance accumulation is declared in init.js line 170 but no code path
writes it). -/
theorem totalDistance_never_updated (s : SessionState) (fs : List FrameInput) :
    (run s fs).totalDistance = s.totalDistance ∧
    (run initState fs).totalDistance = 0 :=
  ⟨run_totalDistance s fs, run_totalDistance initState fs⟩

/-- Claim C2 (confirmed).  A report is emitted on a call if and only if the
updated elapsed time minus `lastLoggedTime` is at least `10`; immediately
after an emission `lastLoggedTime` equals the updated elapsed time; and in
Scenario A (11 calls of `delta = 1`) the report fires exactly on call 10. -/
theorem report_cadence :
    (∀ (s : SessionState) (f : FrameInput),
      ((animate s f).2.isSome = true ↔ 10 ≤ s.elapsedTime + f.delta - s.lastLoggedTime)) ∧
    (∀ (s : SessionState) (f : FrameInput),
      (animate s f).2.isSome = true →
        (animate s f).1.lastLoggedTime = s.elapsedTime + f.delta) ∧
    (runLog initState (List.replicate 11 ⟨1, 1, ⟨0, 0, 0⟩⟩)).2.map Option.isSome =
      [false, false, false, false, false, false, false, false, false, true, false] := by
  refine ⟨?_, ?_, by decide⟩
  · intro s f
    rw [animate_snd, qsub_eq, qadd_eq]
    by_cases hc : 10 ≤ s.elapsedTime + f.delta - s.lastLoggedTime
    · simp [hc]
    · simp [hc]
  · intro s f h
    rw [animate_snd] at h
    by_cases hc : 10 ≤ qsub (qadd s.elapsedTime f.delta) s.lastLoggedTime
    · rw [animate_fst, if_pos hc]
      simp [qadd_eq]
    · rw [if_neg hc] at h
      simp at h

/-- Claim C2, witness: on a first call with `delta = 12` the report fires and
`lastLoggedTime` is set to the updated elapsed time. -/
theorem report_cadence_witness :
    (animate initState ⟨12, 1, ⟨0, 0, 0⟩⟩).1.lastLoggedTime =
      initState.elapsedTime + (12 : ℚ) :=
  report_cadence.2.1 initState ⟨12, 1, ⟨0, 0, 0⟩⟩ (by decide)

/-- Claim C3 (confirmed).  After any sequence of calls, `elapsedTime` equals
the sum of the deltas of those calls (init.js line 348 adds each `delta`). -/
theorem elapsedTime_eq_sum_of_deltas (fs : List FrameInput) :
    (run initState fs).elapsedTime = (fs.map FrameInput.delta).sum := by
  rw [run_elapsedTime]
  show (0 : ℚ) + _ = _
  rw [zero_add]

/-- Claim C4 (confirmed).  `calculateCaloriesBurned` is the pure function
`(weight / 100) * 8 * duration` (init.js lines 330-333), and in particular
maps `(50, 1)` to `4` and `(100, 10)` to `80`. -/
theorem calculateCaloriesBurned_spec :
    (∀ w d : ℚ, calculateCaloriesBurned w d = w / 100 * 8 * d) ∧
    calculateCaloriesBurned 50 1 = 4 ∧ calculateCaloriesBurned 100 10 = 80 := by
  refine ⟨?_, by decide, by decide⟩
  intro w d
  simp only [calculateCaloriesBurned]
  rw [qmul_eq, qmul_eq, qdiv_eq]

/-- Claim C5, counterexample.  The lazy-initialization guard is
`startTime === 0` (init.js line 343), with `0` also the uninitialized value.
For the strictly increasing absolute times `0, 5` the first call assigns
`startTime = 0`, which leaves the guard true, so the second call reassigns
`startTime` to `5`; the claim demands `startTime` stay `0`, the first call's
absolute time. -/
theorem startTime_reassigned_counterexample :
    (0 : ℚ) < 5 ∧
    (run initState [⟨1, 0, ⟨0, 0, 0⟩⟩, ⟨1, 5, ⟨0, 0, 0⟩⟩]).startTime = 5 ∧
    (5 : ℚ) ≠ 0 := by
  refine ⟨by norm_num, by decide, by norm_num⟩

/-- Claim C5, amended: additionally assuming the first call's absolute time is
nonzero, the first call sets `startTime` to it and no later call reassigns
it (the guard `startTime === 0` is false from then on). -/
theorem startTime_set_once_of_first_time_ne_zero (f : FrameInput) (fs : List FrameInput)
    (h : f.time ≠ 0) :
    (animate initState f).1.startTime = f.time ∧
    (run initState (f :: fs)).startTime = f.time := by
  have h1 : (animate initState f).1.startTime = f.time := by
    rw [animate_startTime]
    exact if_pos rfl
  refine ⟨h1, ?_⟩
  rw [run, run_startTime_of_ne _ _ (by rw [h1]; exact h), h1]

/-- Claim C5, witness: first absolute time `3`, a later call at time `4`. -/
theorem startTime_set_once_witness :
    (animate initState ⟨1, 3, ⟨0, 0, 0⟩⟩).1.startTime = (3 : ℚ) ∧
    (run initState [⟨1, 3, ⟨0, 0, 0⟩⟩, ⟨1, 4, ⟨0, 0, 0⟩⟩]).startTime = (3 : ℚ) :=
  startTime_set_once_of_first_time_ne_zero ⟨1, 3, ⟨0, 0, 0⟩⟩ [⟨1, 4, ⟨0, 0, 0⟩⟩]
    (by decide)

/-- Claim C6, counterexample.  After a call whose sampled player position is
`(3,4,0)` the claim demands `previousPosition = (3,4,0)`; the handler of
init.js lines 338-367 never writes `previousPosition`, so it is still the
initial origin vector. -/
theorem previousPosition_stale_counterexample :
    (run initState [⟨1, 1, ⟨3, 4, 0⟩⟩]).previousPosition = ⟨0, 0, 0⟩ ∧
    (⟨0, 0, 0⟩ : Vec3) ≠ ⟨3, 4, 0⟩ :=
  ⟨by decide, by decide⟩

/-- Claim C6, amended.  The per-frame handler never updates
`previousPosition`: after any sequence of calls it still holds its initial
value, the origin vector of init.js line 171. -/
theorem previousPosition_never_updated (s : SessionState) (fs : List FrameInput) :
    (run s fs).previousPosition = s.previousPosition ∧
    (run initState fs).previousPosition = ⟨0, 0, 0⟩ :=
  ⟨run_previousPosition s fs, run_previousPosition initState fs⟩

/-- Claim C7 (confirmed).  With non-negative deltas, `elapsedTime` and
`totalDistance` are monotonically non-decreasing across any sequence of
calls (`totalDistance` is in fact constant). -/
theorem elapsed_and_distance_monotone (s : SessionState) (fs : List FrameInput)
    (h : ∀ f ∈ fs, 0 ≤ f.delta) :
    s.elapsedTime ≤ (run s fs).elapsedTime ∧
    s.totalDistance ≤ (run s fs).totalDistance := by
  refine ⟨?_, le_of_eq (run_totalDistance s fs).symm⟩
  rw [run_elapsedTime]
  have hsum : 0 ≤ (fs.map FrameInput.delta).sum := by
    refine List.sum_nonneg ?_
    intro x hx
    obtain ⟨f, hf, rfl⟩ := List.mem_map.mp hx
    exact h f hf
  linarith

/-- Claim C7, witness: one call with `delta = 1` from the initial state. -/
theorem elapsed_and_distance_monotone_witness :
    initState.elapsedTime ≤ (run initState [⟨1, 1, ⟨0, 0, 0⟩⟩]).elapsedTime ∧
    initState.totalDistance ≤ (run initState [⟨1, 1, ⟨0, 0, 0⟩⟩]).totalDistance :=
  elapsed_and_distance_monotone initState [⟨1, 1, ⟨0, 0, 0⟩⟩] (by decide)

/-- Claim C8 (confirmed).  No code path increments `steps` (declared at
init.js line 169): it is `0` in every reachable state, and every emitted
report's second line reports a step count of `0`. -/
theorem steps_always_zero (fs : List FrameInput) :
    (run initState fs).steps = 0 ∧
    ∀ rep ∈ reports initState fs, rep[1]? = some "Steps Taken: 0" := by
  refine ⟨run_steps initState fs, ?_⟩
  intro rep hrep
  obtain ⟨s', hrep', hsteps, _⟩ := mem_reports initState fs rep hrep
  subst hrep'
  show some ("Steps Taken: " ++ toString s'.steps) = some "Steps Taken: 0"
  rw [hsteps]
  rfl

/-- Claim C8, witness: a first call with `delta = 12` fires a report whose
second line is `Steps Taken: 0`. -/
theorem steps_always_zero_witness :
    (run initState [⟨12, 1, ⟨0, 0, 0⟩⟩]).steps = 0 ∧
    (["Time Elapsed: 12.00 seconds", "Steps Taken: 0",
      "Total Distance: 0.00 meters", "Calories Burned: 0.80"] : List String)[1]? =
      some "Steps Taken: 0" :=
  ⟨(steps_always_zero [⟨12, 1, ⟨0, 0, 0⟩⟩]).1,
   (steps_always_zero [⟨12, 1, ⟨0, 0, 0⟩⟩]).2 _ (by decide)⟩

/-- Claim C9 (confirmed).  Every emitted report is exactly the four labelled
lines of init.js lines 352-355, in order: elapsed time (two decimal places),
step count, total distance (two decimal places), calories burned. -/
theorem report_four_lines (fs : List FrameInput) (rep : List String)
    (h : rep ∈ reports initState fs) :
    rep.length = 4 ∧
    ∃ t d c : ℚ, ∃ n : ℕ,
      rep = ["Time Elapsed: " ++ fmt2 t ++ " seconds",
             "Steps Taken: " ++ toString n,
             "Total Distance: " ++ fmt2 d ++ " meters",
             "Calories Burned: " ++ fmt2 c] := by
  obtain ⟨s', hrep', _, _⟩ := mem_reports initState fs rep h
  subst hrep'
  exact ⟨rfl, s'.elapsedTime, s'.totalDistance,
    calculateCaloriesBurned userWeight (qdiv s'.elapsedTime 60), s'.steps, rfl⟩

/-- Claim C9, witness: the report fired by a first call with `delta = 12`. -/
theorem report_four_lines_witness :
    (["Time Elapsed: 12.00 seconds", "Steps Taken: 0",
      "Total Distance: 0.00 meters", "Calories Burned: 0.80"] : List String).length = 4 ∧
    ∃ t d c : ℚ, ∃ n : ℕ,
      (["Time Elapsed: 12.00 seconds", "Steps Taken: 0",
        "Total Distance: 0.00 meters", "Calories Burned: 0.80"] : List String) =
        ["Time Elapsed: " ++ fmt2 t ++ " seconds",
         "Steps Taken: " ++ toString n,
         "Total Distance: " ++ fmt2 d ++ " meters",
         "Calories Burned: " ++ fmt2 c] :=
  report_four_lines [⟨12, 1, ⟨0, 0, 0⟩⟩] _ (by decide)

/-- Claim C10 (confirmed).  In every emitted report the calories line is
computed as `calculateCaloriesBurned(userWeight, e / 60)` where
`userWeight = 50` and `e` is the same accumulated elapsed time shown in the
report's first line, i.e. it equals `(50 / 100) * 8 * (e / 60)`. -/
theorem report_calories_from_elapsed (fs : List FrameInput) (rep : List String)
    (h : rep ∈ reports initState fs) :
    userWeight = 50 ∧
    ∃ e d : ℚ, ∃ n : ℕ,
      rep = ["Time Elapsed: " ++ fmt2 e ++ " seconds",
             "Steps Taken: " ++ toString n,
             "Total Distance: " ++ fmt2 d ++ " meters",
             "Calories Burned: " ++ fmt2 (calculateCaloriesBurned userWeight (qdiv e 60))] ∧
      calculateCaloriesBurned userWeight (qdiv e 60) = 50 / 100 * 8 * (e / 60) := by
  obtain ⟨s', hrep', _, _⟩ := mem_reports initState fs rep h
  subst hrep'
  refine ⟨rfl, s'.elapsedTime, s'.totalDistance, s'.steps, rfl, ?_⟩
  simp only [calculateCaloriesBurned]
  rw [qmul_eq, qmul_eq, qdiv_eq, qdiv_eq, userWeight]

/-- Claim C10, witness: the report fired by a first call with `delta = 12`;
its calories line equals `(50 / 100) * 8 * (12 / 60) = 0.8`, rendered
`0.80`. -/
theorem report_calories_witness :
    userWeight = 50 ∧
    ∃ e d : ℚ, ∃ n : ℕ,
      (["Time Elapsed: 12.00 seconds", "Steps Taken: 0",
        "Total Distance: 0.00 meters", "Calories Burned: 0.80"] : List String) =
        ["Time Elapsed: " ++ fmt2 e ++ " seconds",
         "Steps Taken: " ++ toString n,
         "Total Distance: " ++ fmt2 d ++ " meters",
         "Calories Burned: " ++ fmt2 (calculateCaloriesBurned userWeight (qdiv e 60))] ∧
      calculateCaloriesBurned userWeight (qdiv e 60) = 50 / 100 * 8 * (e / 60) :=
  report_calories_from_elapsed [⟨12, 1, ⟨0, 0, 0⟩⟩] _ (by decide)
